import Mathlib

/-!
Verification of the MCPSample-Flight chat pipeline.

This file shallowly embeds the `/chat` handler of `api-gateway/src/index.ts`
(and the flight server's `searchFlightsAmadeus` from
`mcp-flight-server/src/index.ts`) as pure Lean functions, and proves or
refutes the specification's claims about them.

External collaborators (the LLM backend reached through `chat(...)` and the
flight-search service reached through `searchFlightsViaMCP(...)`) are modelled
as a per-request oracle (`Env`): each outbound call either returns a value or
raises (modelled with `Except`).  The handler is a function from the oracle
and the request messages to an HTTP-level outcome together with the ordered
trace of outbound collaborator calls it performed.

`JSON.parse` is modelled by `jsonParse`, a recursive-descent parser for the
integer-numeral fragment of JSON (JSON numbers with fractions or exponents
are outside the fragment exercised by this system).  JavaScript value
behaviour used by the handler (truthiness, `||` defaulting, `!!` coercion,
template-literal string conversion, property access on non-objects) is
modelled by the `js*` helpers below.
-/

set_option maxRecDepth 40000

namespace FlightChat

/-- A JSON value, as produced by `JSON.parse` (integer-numeral fragment).
Objects keep their fields in source order; duplicate keys are resolved by
`getField` taking the last binding, as `JSON.parse` does. -/
inductive Json where
  | null
  | bool (b : Bool)
  | num (n : Int)
  | str (s : String)
  | arr (elems : List Json)
  | obj (fields : List (String × Json))

/-- Whitespace skipping inside `JSON.parse` (space, tab, newline, CR). -/
def skipWs : List Char → List Char
  | [] => []
  | c :: cs => if c = ' ' ∨ c = '\t' ∨ c = '\n' ∨ c = '\r' then skipWs cs else c :: cs

/-- Hex digit value, for `\uXXXX` escapes. -/
def hexVal (c : Char) : Option Nat :=
  if '0' ≤ c ∧ c ≤ '9' then some (c.toNat - 48)
  else if 'a' ≤ c ∧ c ≤ 'f' then some (c.toNat - 87)
  else if 'A' ≤ c ∧ c ≤ 'F' then some (c.toNat - 70)
  else none

/-- Body of a JSON string literal (after the opening quote), accumulating
characters until the closing quote; supports the standard escapes. -/
def parseJStringAux : Nat → List Char → List Char → Option (String × List Char)
  | 0, _, _ => none
  | _ + 1, _, [] => none
  | fuel + 1, acc, c :: rest =>
    if c = '"' then some (String.mk acc.reverse, rest)
    else if c = '\\' then
      match rest with
      | [] => none
      | e :: rest₁ =>
        if e = '"' then parseJStringAux fuel ('"' :: acc) rest₁
        else if e = '\\' then parseJStringAux fuel ('\\' :: acc) rest₁
        else if e = '/' then parseJStringAux fuel ('/' :: acc) rest₁
        else if e = 'b' then parseJStringAux fuel ('\x08' :: acc) rest₁
        else if e = 'f' then parseJStringAux fuel ('\x0c' :: acc) rest₁
        else if e = 'n' then parseJStringAux fuel ('\n' :: acc) rest₁
        else if e = 'r' then parseJStringAux fuel ('\r' :: acc) rest₁
        else if e = 't' then parseJStringAux fuel ('\t' :: acc) rest₁
        else if e = 'u' then
          match rest₁ with
          | h1 :: h2 :: h3 :: h4 :: rest₂ =>
            match hexVal h1, hexVal h2, hexVal h3, hexVal h4 with
            | some a, some b, some c₃, some d =>
              parseJStringAux fuel (Char.ofNat (((a * 16 + b) * 16 + c₃) * 16 + d) :: acc) rest₂
            | _, _, _, _ => none
          | _ => none
        else none
    else if c.toNat < 32 then none
    else parseJStringAux fuel (c :: acc) rest

/-- Digits to a natural number. -/
def digitsToNat (ds : List Char) : Nat :=
  ds.foldl (fun a c => 10 * a + (c.toNat - 48)) 0

/-- JSON number (integer-numeral fragment): optional minus, then digits,
rejecting a leading zero followed by further digits as `JSON.parse` does. -/
def parseNumber (cs : List Char) : Option (Json × List Char) :=
  match cs with
  | '-' :: rest =>
    let p := rest.span (·.isDigit)
    match p.1 with
    | [] => none
    | '0' :: _ :: _ => none
    | ds => some (.num (-(digitsToNat ds : Int)), p.2)
  | _ =>
    let p := cs.span (·.isDigit)
    match p.1 with
    | [] => none
    | '0' :: _ :: _ => none
    | ds => some (.num (digitsToNat ds), p.2)

mutual

/-- One JSON value, fuelled recursive descent. -/
def parseValue : Nat → List Char → Option (Json × List Char)
  | 0, _ => none
  | fuel + 1, cs =>
    match skipWs cs with
    | 'n' :: 'u' :: 'l' :: 'l' :: rest => some (.null, rest)
    | 't' :: 'r' :: 'u' :: 'e' :: rest => some (.bool true, rest)
    | 'f' :: 'a' :: 'l' :: 's' :: 'e' :: rest => some (.bool false, rest)
    | '"' :: rest =>
      match parseJStringAux (rest.length + 1) [] rest with
      | some (s, r) => some (.str s, r)
      | none => none
    | '[' :: rest =>
      match skipWs rest with
      | ']' :: rest₁ => some (.arr [], rest₁)
      | cs₁ =>
        match parseElems fuel cs₁ with
        | some (xs, r) => some (.arr xs, r)
        | none => none
    | '{' :: rest =>
      match skipWs rest with
      | '}' :: rest₁ => some (.obj [], rest₁)
      | cs₁ =>
        match parseFields fuel cs₁ with
        | some (fs, r) => some (.obj fs, r)
        | none => none
    | cs₁ => parseNumber cs₁

/-- Comma-separated array elements up to the closing bracket. -/
def parseElems : Nat → List Char → Option (List Json × List Char)
  | 0, _ => none
  | fuel + 1, cs =>
    match parseValue fuel cs with
    | none => none
    | some (v, rest) =>
      match skipWs rest with
      | ',' :: rest₁ =>
        match parseElems fuel rest₁ with
        | some (xs, r) => some (v :: xs, r)
        | none => none
      | ']' :: rest₁ => some ([v], rest₁)
      | _ => none

/-- Comma-separated object members up to the closing brace. -/
def parseFields : Nat → List Char → Option (List (String × Json) × List Char)
  | 0, _ => none
  | fuel + 1, cs =>
    match skipWs cs with
    | '"' :: rest =>
      match parseJStringAux (rest.length + 1) [] rest with
      | none => none
      | some (k, rest₁) =>
        match skipWs rest₁ with
        | ':' :: rest₂ =>
          match parseValue fuel rest₂ with
          | none => none
          | some (v, rest₃) =>
            match skipWs rest₃ with
            | ',' :: rest₄ =>
              match parseFields fuel rest₄ with
              | some (fs, r) => some ((k, v) :: fs, r)
              | none => none
            | '}' :: rest₄ => some ([(k, v)], rest₄)
            | _ => none
        | _ => none
    | _ => none

end

/-- Model of `JSON.parse`: `some` on success, `none` when it would throw. -/
def jsonParse (s : String) : Option Json :=
  match parseValue (3 * s.length + 16) s.data with
  | some (v, rest) => if (skipWs rest).isEmpty then some v else none
  | none => none

/-- JavaScript property access `x.key` (optional-chaining compatible):
`some` for an object field, `none` (undefined) otherwise.  On duplicate
keys the last binding wins, as in `JSON.parse`. -/
def getField (j : Json) (key : String) : Option Json :=
  match j with
  | .obj fields => (fields.filterMap fun kv => if kv.1 = key then some kv.2 else none).getLast?
  | _ => none

/-- JavaScript truthiness of a JSON value. -/
def jsTruthy : Json → Bool
  | .null => false
  | .bool b => b
  | .num n => n ≠ 0
  | .str s => s ≠ ""
  | .arr _ => true
  | .obj _ => true

/-- JavaScript `x || d` where `x` may be undefined (`none`). -/
def jsOr (x : Option Json) (d : Json) : Json :=
  match x with
  | some j => if jsTruthy j then j else d
  | none => d

/-- JavaScript `!!x` where `x` may be undefined (`none`). -/
def jsTruthyOpt (x : Option Json) : Bool :=
  match x with
  | some j => jsTruthy j
  | none => false

mutual

/-- JavaScript `String(x)` / template-literal conversion of a JSON value. -/
def jsToString : Json → String
  | .null => "null"
  | .bool true => "true"
  | .bool false => "false"
  | .num n => toString n
  | .str s => s
  | .arr xs => jsArrToString xs
  | .obj _ => "[object Object]"

/-- `Array.prototype.toString`: elements joined with commas, `null`
rendering as the empty string. -/
def jsArrToString : List Json → String
  | [] => ""
  | [.null] => ""
  | [x] => jsToString x
  | .null :: xs => "," ++ jsArrToString xs
  | x :: xs => jsToString x ++ "," ++ jsArrToString xs

end

/-- Template-literal conversion where the value may be undefined. -/
def jsToStringOpt : Option Json → String
  | none => "undefined"
  | some j => jsToString j

/-- Message roles (`api-gateway/src/types.ts`, `ChatMessage.role`). -/
inductive Role where
  | system
  | user
  | assistant

/-- `ChatMessage` from `api-gateway/src/types.ts`. -/
structure ChatMessage where
  role : Role
  content : String

/-- Offer price (`mcp-flight-server/src/types.ts`, `FlightOffer.price`). -/
structure Price where
  total : String
  currency : String

/-- `FlightOffer` from `mcp-flight-server/src/types.ts`; itineraries are an
opaque JSON array never inspected by the pipeline. -/
structure FlightOffer where
  id : String
  price : Price
  itineraries : List Json

/-- `FlightSearchResult` from `mcp-flight-server/src/types.ts`: the shape the
flight server returns and the gateway receives as `data.result`. -/
structure FlightSearchResult where
  currency : String
  items : List FlightOffer

/-- The runtime arguments of the `searchFlightsViaMCP` call made by the chat
handler (`index.ts` lines 178-186).  The parsed intent is an unvalidated JSON
object, so each forwarded field is whatever JSON value (or undefined) the
object held; `round` is coerced with `!!` and `adults`/`currency` are
defaulted with `||`. -/
structure SearchCallParams where
  origin : Option Json
  destination : Option Json
  departDate : Option Json
  returnDate : Option Json
  round : Bool
  adults : Json
  currency : Json

/-- `ChatResponse` from `api-gateway/src/types.ts` as the handler actually
builds it: `flights` is `none` exactly when the handler's `flights` variable
is still `null`; `cards` holds whatever value the cards step left (the
handler assigns `JSON.parse` output to it without shape validation, so it is
an arbitrary JSON value; its initial value is the empty array). -/
structure ChatResponse where
  message : String
  flights : Option FlightSearchResult
  cards : Json

/-- HTTP-level outcome of one `/chat` request. -/
inductive ChatOutcome where
  | badRequest (error : String)
  | ok (response : ChatResponse)
  | serverError (message : String)

/-- One outbound collaborator call, with the data it was given. -/
inductive Call where
  | llm (messages : List ChatMessage)
  | search (params : SearchCallParams)

/-- Per-request oracle for the collaborators: what each outbound call would
return (`Except.error` models a raised exception).  The flight-search oracle
is a function of the parameters it is invoked with; by the flight server's
contract a successful search yields a `FlightSearchResult`. -/
structure Env where
  extractor : Except String String
  search : SearchCallParams → Except String FlightSearchResult
  summarizer : Except String String
  cardGen : Except String String

/-- The fixed intent-extraction instruction (`index.ts` lines 144-160). -/
def intentPrompt : String :=
  "\nYou are a travel assistant. Analyze the user\x27s message and determine their intent.\n\nIf they want to search for flights, extract the following information and return ONLY a JSON object:\n\x7b\n  \"intent\": \"search_flights\",\n  \"origin\": \"IATA code or city name\",\n  \"destination\": \"IATA code or city name\",\n  \"departDate\": \"YYYY-MM-DD\",\n  \"returnDate\": \"YYYY-MM-DD\" (optional for round trips),\n  \"round\": true/false,\n  \"adults\": number (default 1),\n  \"currency\": \"USD/KRW/EUR/etc\" (optional)\n\x7d\n\nIf it\x27s not a flight search, just respond naturally with helpful travel advice.\nDo NOT include any text outside the JSON when intent is search_flights."

/-- The fixed summarization instruction (`index.ts` lines 190-193). -/
def summaryPrompt : String :=
  "\nSummarize these flight search results in a friendly, concise way for a mobile chat interface.\nKeep it under 3 sentences. Mention the cheapest option and flight duration range.\nBe conversational and helpful."

/-- The card-generation instruction (`index.ts` lines 201-208),
parameterized by the destination as interpolated by the template literal. -/
def cardsPrompt (dest : Option Json) : String :=
  "\nCreate 3 travel info cards for " ++ jsToStringOpt dest ++
  ".\nReturn ONLY a JSON array with this structure:\n[\n  \x7b\"title\": \"Local Food\", \"summary\": \"Must-try dishes and restaurants\", \"url\": \"optional\"\x7d,\n  \x7b\"title\": \"Top Attractions\", \"summary\": \"Popular sights and activities\", \"url\": \"optional\"\x7d,\n  \x7b\"title\": \"Travel Tips\", \"summary\": \"Useful local information\", \"url\": \"optional\"\x7d\n]"

/-- 400 body for an empty request (`index.ts` line 139). -/
def emptyRequestMessage : String := "메시지가 필요합니다"

/-- 500 body message for a pipeline failure (`index.ts` line 245). -/
def pipelineFailureMessage : String := "죄송합니다, 요청을 처리하는 중 오류가 발생했습니다."

/-- Fixed apology for a successful zero-offer search (`index.ts` line 226). -/
def noResultsMessage : String :=
  "죄송합니다, 해당 조건의 항공편을 찾을 수 없습니다. 날짜나 목적지를 조정해보시겠어요?"

/-- Conversation sent to the intent extractor (`index.ts` line 162). -/
def intentMessages (messages : List ChatMessage) : List ChatMessage :=
  ⟨Role.system, intentPrompt⟩ :: messages

/-- JSON-string escaping for `JSON.stringify`. -/
def escapeJString (s : String) : String :=
  s.data.foldl
    (fun acc c =>
      if c = '"' then acc ++ "\\\""
      else if c = '\\' then acc ++ "\\\\"
      else if c = '\n' then acc ++ "\\n"
      else if c = '\r' then acc ++ "\\r"
      else if c = '\t' then acc ++ "\\t"
      else acc.push c)
    ""

mutual

/-- `JSON.stringify` on a JSON value. -/
def stringifyJson : Json → String
  | .null => "null"
  | .bool true => "true"
  | .bool false => "false"
  | .num n => toString n
  | .str s => "\"" ++ escapeJString s ++ "\""
  | .arr xs => "[" ++ stringifyList xs ++ "]"
  | .obj fs => "\x7b" ++ stringifyFields fs ++ "\x7d"

/-- Array elements for `stringifyJson`. -/
def stringifyList : List Json → String
  | [] => ""
  | [x] => stringifyJson x
  | x :: xs => stringifyJson x ++ "," ++ stringifyList xs

/-- Object members for `stringifyJson`. -/
def stringifyFields : List (String × Json) → String
  | [] => ""
  | [kv] => "\"" ++ escapeJString kv.1 ++ "\":" ++ stringifyJson kv.2
  | kv :: kvs => "\"" ++ escapeJString kv.1 ++ "\":" ++ stringifyJson kv.2 ++ "," ++ stringifyFields kvs

end

/-- `JSON.stringify(flights)` for the summarizer's user message, following
the key order of the flight server's response. -/
def stringifyResult (r : FlightSearchResult) : String :=
  stringifyJson (.obj [("currency", .str r.currency),
    ("items", .arr (r.items.map fun o =>
      .obj [("id", .str o.id),
            ("price", .obj [("total", .str o.price.total), ("currency", .str o.price.currency)]),
            ("itineraries", .arr o.itineraries)]))])

/-- Conversation sent to the summarizer (`index.ts` lines 195-198). -/
def summaryMessages (flights : FlightSearchResult) : List ChatMessage :=
  [⟨Role.system, summaryPrompt⟩, ⟨Role.user, stringifyResult flights⟩]

/-- Conversation sent to the card generator (`index.ts` lines 210-213). -/
def cardsMessages (v : Json) : List ChatMessage :=
  [⟨Role.system, cardsPrompt (getField v "destination")⟩,
   ⟨Role.user, "Destination: " ++ jsToStringOpt (getField v "destination")⟩]

/-- The fixed fallback card triple (`index.ts` lines 219-223), with the
destination interpolated into the Explore card. -/
def fallbackCards (dest : Option Json) : Json :=
  .arr
    [.obj [("title", .str "Explore"), ("summary", .str ("Discover " ++ jsToStringOpt dest))],
     .obj [("title", .str "Local Tips"), ("summary", .str "Check local guides for recommendations")],
     .obj [("title", .str "Weather"), ("summary", .str "Check forecast before your trip")]]

/-- The intent check `parsed?.intent === "search_flights"` (`index.ts`
line 174): true exactly when the parsed value is an object whose `intent`
field is the string `search_flights`. -/
def isFlightIntent (v : Json) : Bool :=
  match getField v "intent" with
  | some (Json.str s) => s = "search_flights"
  | _ => false

/-- The arguments of the `searchFlightsViaMCP` call (`index.ts` lines
178-186): fields read off the parsed object, `round` coerced with `!!`,
`adults` defaulted to `1` and `currency` to `"USD"` with `||`. -/
def searchParamsOf (v : Json) : SearchCallParams where
  origin := getField v "origin"
  destination := getField v "destination"
  departDate := getField v "departDate"
  returnDate := getField v "returnDate"
  round := jsTruthyOpt (getField v "round")
  adults := jsOr (getField v "adults") (.num 1)
  currency := jsOr (getField v "currency") (.str "USD")

/-- Steps 3 and 4 of the handler (`index.ts` lines 189-224), entered when the
search succeeded with at least one offer.  A raise from the summarizer or the
card-generator LLM call lands in the enclosing `catch (parseError)` block
(`index.ts` line 229), after which the response is assembled from the
variables as already assigned: `flights` is already set, and
`assistantMessage` still holds the raw intent text (summarizer raise) or the
summary (card raise).  A card output that `JSON.parse` accepts is assigned to
`cards` as-is, with no shape validation; only a parse throw substitutes the
fallback triple. -/
def summarizeAndCards (env : Env) (v : Json) (intentResponse : String)
    (flights : FlightSearchResult) : ChatResponse × List Call :=
  match env.summarizer with
  | .error _ =>
    (⟨intentResponse, some flights, .arr []⟩, [Call.llm (summaryMessages flights)])
  | .ok assistantMessage =>
    match env.cardGen with
    | .error _ =>
      (⟨assistantMessage, some flights, .arr []⟩,
       [Call.llm (summaryMessages flights), Call.llm (cardsMessages v)])
    | .ok cardsResponse =>
      let cards : Json :=
        match jsonParse cardsResponse with
        | some j => j
        | none => fallbackCards (getField v "destination")
      (⟨assistantMessage, some flights, cards⟩,
       [Call.llm (summaryMessages flights), Call.llm (cardsMessages v)])

/-- The flight flow (`index.ts` lines 178-227), entered when the parsed
intent matched.  A raise from `searchFlightsViaMCP` lands in the enclosing
`catch (parseError)` block before `flights` is assigned, so the response
falls back to the raw intent text with `flights` still `null`.  A successful
search with zero offers keeps the (non-null) result in `flights` and only
replaces the message with the apology. -/
def flightFlow (env : Env) (v : Json) (intentResponse : String) :
    ChatResponse × List Call :=
  let p := searchParamsOf v
  match env.search p with
  | .error _ => (⟨intentResponse, none, .arr []⟩, [Call.search p])
  | .ok flights =>
    if flights.items.length > 0 then
      ((summarizeAndCards env v intentResponse flights).1,
       Call.search p :: (summarizeAndCards env v intentResponse flights).2)
    else
      (⟨noResultsMessage, some flights, .arr []⟩, [Call.search p])

/-- The `/chat` handler (`index.ts` lines 133-249) as a function of the
collaborator oracle and the request messages, returning the HTTP outcome and
the ordered trace of outbound calls.  An empty (or missing) message list is
rejected with 400 before any call.  A raise from the intent-extractor LLM
call reaches the outer catch and yields the 500 pipeline failure.  A raw
response that does not parse as JSON, or parses to anything without
`intent == "search_flights"`, becomes the reply text verbatim. -/
def chatHandler (env : Env) (messages : List ChatMessage) :
    ChatOutcome × List Call :=
  if messages.isEmpty then
    (.badRequest emptyRequestMessage, [])
  else
    match env.extractor with
    | .error _ => (.serverError pipelineFailureMessage, [Call.llm (intentMessages messages)])
    | .ok intentResponse =>
      match jsonParse intentResponse with
      | none => (.ok ⟨intentResponse, none, .arr []⟩, [Call.llm (intentMessages messages)])
      | some v =>
        if isFlightIntent v then
          (.ok (flightFlow env v intentResponse).1,
           Call.llm (intentMessages messages) :: (flightFlow env v intentResponse).2)
        else
          (.ok ⟨intentResponse, none, .arr []⟩, [Call.llm (intentMessages messages)])

/-- `SearchFlightParams` from `mcp-flight-server/src/types.ts`. -/
structure SearchFlightParams where
  origin : String
  destination : String
  departDate : String
  returnDate : Option String
  adults : Option Int
  currency : Option String

/-- The `data` payload of the upstream Amadeus flight-offers response
(`mcp-flight-server/src/types.ts`, `AmadeusFlightSearchResponse`). -/
structure AmadeusFlightSearchResponse where
  data : Option (List FlightOffer)

/-- The query string `searchFlightsAmadeus` builds (`mcp-flight-server`
`index.ts` lines 56-65). -/
structure AmadeusQuery where
  originLocationCode : String
  destinationLocationCode : String
  departureDate : String
  returnDate : Option String
  adults : String
  currencyCode : String
  max : String

/-- Upstream oracle for the flight server: the OAuth token step and the
flight-offers fetch (errors model non-success HTTP statuses or raises). -/
structure AmadeusEnv where
  token : Except String String
  flightOffers : AmadeusQuery → Except String AmadeusFlightSearchResponse

/-- The query parameters set on the flight-offers URL (`mcp-flight-server`
`index.ts` lines 56-65): `adults` defaulted to 1, `currencyCode` to `USD`,
`max` fixed at 20. -/
def amadeusQueryOf (params : SearchFlightParams) : AmadeusQuery where
  originLocationCode := params.origin
  destinationLocationCode := params.destination
  departureDate := params.departDate
  returnDate := params.returnDate
  adults := toString (params.adults.getD 1)
  currencyCode := params.currency.getD "USD"
  max := "20"

/-- `searchFlightsAmadeus` (`mcp-flight-server/src/index.ts` lines 51-85):
fetch a token, query the flight-offers API, and normalize: items are the
upstream `data` (or `[]` when absent) and the result currency is the
*request* currency defaulted to `USD` — the upstream offers are passed
through untouched but never consulted for the top-level currency. -/
def searchFlightsAmadeus (env : AmadeusEnv) (params : SearchFlightParams) :
    Except String FlightSearchResult :=
  match env.token with
  | .error e => .error e
  | .ok _ =>
    match env.flightOffers (amadeusQueryOf params) with
    | .error e => .error ("Amadeus Flight API 에러: " ++ e)
    | .ok json => .ok ⟨params.currency.getD "USD", json.data.getD []⟩

/-! ### Concrete fixtures

A single user request together with canned collaborator behaviours, used to
instantiate the claims on concrete runs. -/

/-- The example user conversation from the specification. -/
def msgs1 : List ChatMessage :=
  [⟨Role.user, "Find flights Seoul to New York next Monday"⟩]

/-- A canned extractor reply carrying a well-formed flight intent. -/
def intentJson : String :=
  "\x7b\"intent\":\"search_flights\",\"origin\":\"ICN\",\"destination\":\"JFK\",\"departDate\":\"2025-03-17\"\x7d"

/-- The JSON value `JSON.parse` yields on `intentJson`. -/
def vIntent : Json :=
  .obj [("intent", .str "search_flights"), ("origin", .str "ICN"),
        ("destination", .str "JFK"), ("departDate", .str "2025-03-17")]

/-- One canned offer (the spec's $890 example). -/
def offer1 : FlightOffer := ⟨"1", ⟨"890.00", "USD"⟩, []⟩

/-- A canned one-offer search result. -/
def result1 : FlightSearchResult := ⟨"USD", [offer1]⟩

/-- Oracle for a fully successful flight-flow run. -/
def envBase : Env where
  extractor := .ok intentJson
  search := fun _ => .ok result1
  summarizer := .ok "Found a great deal!"
  cardGen := .ok "[\x7b\"title\":\"Local Food\",\"summary\":\"Try the bagels\"\x7d,\x7b\"title\":\"Top Attractions\",\"summary\":\"Central Park\"\x7d,\x7b\"title\":\"Travel Tips\",\"summary\":\"Use the subway\"\x7d]"

/-- Oracle for a run in which the flight-search collaborator raises. -/
def envSearchFails : Env :=
  { envBase with search := fun _ => .error "MCP 서버 호출 실패 (500): upstream down" }

/-- Oracle for a successful search that returns zero offers. -/
def envZeroOffers : Env :=
  { envBase with search := fun _ => .ok ⟨"USD", []⟩ }

/-- Oracle whose extractor answers with the empty string. -/
def envEmptyText : Env :=
  { envBase with extractor := .ok "" }

/-- Oracle whose extractor answers with free-form text. -/
def envGeneralText : Env :=
  { envBase with extractor := .ok "I recommend visiting in spring!" }

/-- Oracle whose card generator answers `[]`: valid JSON, zero cards. -/
def envCardsEmptyArray : Env :=
  { envBase with cardGen := .ok "[]" }

/-- Oracle whose card generator answers `5`: valid JSON, not an array. -/
def envCardsNumber : Env :=
  { envBase with cardGen := .ok "5" }

/-- Oracle whose card generator answers text that is not JSON. -/
def envCardsGarbage : Env :=
  { envBase with cardGen := .ok "Here are your cards!" }

/-- Oracle whose summarizer LLM call raises. -/
def envSummarizerFails : Env :=
  { envBase with summarizer := .error "LLM down" }

/-- The cards `JSON.parse` yields on `envBase`'s card-generator output. -/
def cardsBase : Json :=
  .arr [.obj [("title", .str "Local Food"), ("summary", .str "Try the bagels")],
        .obj [("title", .str "Top Attractions"), ("summary", .str "Central Park")],
        .obj [("title", .str "Travel Tips"), ("summary", .str "Use the subway")]]

/-- The response of the fully successful run on `envBase`. -/
def respBase : ChatResponse := ⟨"Found a great deal!", some result1, cardsBase⟩

/-- One canned upstream offer priced in euros. -/
def offerEUR : FlightOffer := ⟨"9", ⟨"700.00", "EUR"⟩, []⟩

/-- Upstream oracle for the flight server: token granted, one EUR offer. -/
def amadeusEnv1 : AmadeusEnv where
  token := .ok "token"
  flightOffers := fun _ => .ok ⟨some [offerEUR]⟩

/-- Server-side search parameters requesting KRW. -/
def params1 : SearchFlightParams := ⟨"ICN", "JFK", "2025-03-17", none, none, some "KRW"⟩

/-! ### Claims -/

/-- C7: for every chat request whose message list is empty (or missing, which
the handler treats the same way), the pipeline rejects with the
`EmptyRequest` failure (HTTP 400 with the fixed error string) and performs
zero external collaborator calls: the call trace is empty. -/
theorem c7_empty_request (env : Env) :
    chatHandler env [] = (.badRequest emptyRequestMessage, []) := rfl

/-- C1: the claim states that a raise from the Flight Search Invoker, the
Response Summarizer, or the Travel Card Generator aborts the pipeline with a
caller-visible typed failure.  The code instead swallows all three inside the
`catch (parseError)` block that was written for intent-JSON parse failures:
on this run the intent parses as `search_flights` and the search collaborator
raises, yet the handler returns HTTP 200 with a normal `ChatResponse` whose
message is the raw intent JSON text, `flights` null and `cards` empty — not a
pipeline failure. -/
theorem c1_collaborator_failure_swallowed :
    chatHandler envSearchFails msgs1 =
      (.ok ⟨intentJson, none, .arr []⟩,
       [Call.llm (intentMessages msgs1), Call.search (searchParamsOf vIntent)]) := rfl

/-- C6: for every intent-extractor response that is not valid JSON, or whose
parsed value is not an object with `intent == "search_flights"`, the pipeline
returns a normal `ChatResponse` (HTTP 200, not an error) whose message is the
raw LLM text verbatim, with no flights and empty cards, after exactly the one
extractor call. -/
theorem c6_general_reply (env : Env) (messages : List ChatMessage) (t : String)
    (hne : messages ≠ [])
    (hext : env.extractor = .ok t)
    (hgen : jsonParse t = none ∨ ∃ v, jsonParse t = some v ∧ isFlightIntent v = false) :
    chatHandler env messages =
      (.ok ⟨t, none, .arr []⟩, [Call.llm (intentMessages messages)]) := by
  cases messages with
  | nil => exact absurd rfl hne
  | cons m ms =>
    rcases hgen with hnone | ⟨v, hv, hfi⟩
    · simp [chatHandler, hext, hnone]
    · simp [chatHandler, hext, hv, hfi]

/-- C6 witness: a free-form extractor reply becomes the message verbatim. -/
theorem c6_general_reply_witness :
    chatHandler envGeneralText msgs1 =
      (.ok ⟨"I recommend visiting in spring!", none, .arr []⟩,
       [Call.llm (intentMessages msgs1)]) :=
  c6_general_reply envGeneralText msgs1 "I recommend visiting in spring!"
    (by simp [msgs1]) rfl (Or.inl rfl)

/-- C2 counterexample: the claim states that a successful search with zero
items yields a `ChatResponse` with no flights field.  On this run the search
succeeds with zero offers and the handler keeps the zero-item result in
`flights` (it is never reset to null), so the flights field is present. -/
theorem c2_counterexample :
    (chatHandler envZeroOffers msgs1).1 =
      .ok ⟨noResultsMessage, some ⟨"USD", []⟩, .arr []⟩ ∧
    (some (⟨"USD", []⟩ : FlightSearchResult)) ≠ none := ⟨rfl, by simp⟩

/-- C2 amended: for every run in which the search collaborator succeeds with
zero items, the message is the fixed apology string and `cards` is empty, but
`flights` contains the zero-item search result instead of being absent. -/
theorem c2_zero_offers_flights_kept (env : Env) (messages : List ChatMessage)
    (t : String) (v : Json) (fr : FlightSearchResult)
    (hne : messages ≠ []) (hext : env.extractor = .ok t)
    (hparse : jsonParse t = some v) (hfi : isFlightIntent v = true)
    (hsearch : env.search (searchParamsOf v) = .ok fr) (hitems : fr.items = []) :
    (chatHandler env messages).1 = .ok ⟨noResultsMessage, some fr, .arr []⟩ := by
  cases messages with
  | nil => exact absurd rfl hne
  | cons m ms => simp [chatHandler, hext, hparse, hfi, flightFlow, hsearch, hitems]

/-- C2 amended witness: the zero-offer run on the canned oracle. -/
theorem c2_zero_offers_witness :
    (chatHandler envZeroOffers msgs1).1 =
      .ok ⟨noResultsMessage, some ⟨"USD", []⟩, .arr []⟩ :=
  c2_zero_offers_flights_kept envZeroOffers msgs1 intentJson vIntent ⟨"USD", []⟩
    (by simp [msgs1]) rfl rfl rfl rfl rfl

/-- C10: for every search the flight server completes, the `currency` of the
returned `FlightSearchResult` is the request currency (defaulted to `USD`
when absent), regardless of the currencies carried by the upstream offers,
which are passed through untouched. -/
theorem c10_result_currency (env : AmadeusEnv) (params : SearchFlightParams)
    (r : FlightSearchResult)
    (h : searchFlightsAmadeus env params = .ok r) :
    r.currency = params.currency.getD "USD" := by
  unfold searchFlightsAmadeus at h
  cases htok : env.token with
  | error e => rw [htok] at h; cases h
  | ok tok =>
    rw [htok] at h
    cases hfo : env.flightOffers (amadeusQueryOf params) with
    | error e => rw [hfo] at h; cases h
    | ok json =>
      rw [hfo] at h
      cases h
      rfl

/-- C10 witness: a KRW request against an upstream payload whose only offer
is priced in EUR still reports KRW. -/
theorem c10_result_currency_witness :
    (⟨"KRW", [offerEUR]⟩ : FlightSearchResult).currency =
      params1.currency.getD "USD" :=
  c10_result_currency amadeusEnv1 params1 ⟨"KRW", [offerEUR]⟩ rfl

/-- C4 counterexample: the claim states that after a successful search with
at least one offer, `cards` has exactly 3 entries (LLM-produced or the
fallback triple).  On this run the search succeeds with one offer and the
card generator answers `[]` — valid JSON, so it is used as-is: the response
carries zero cards, and that value is not the fallback triple either. -/
theorem c4_counterexample :
    (chatHandler envCardsEmptyArray msgs1).1 =
      .ok ⟨"Found a great deal!", some result1, .arr []⟩ ∧
    Json.arr [] ≠ fallbackCards (getField vIntent "destination") ∧
    ([] : List Json).length ≠ 3 :=
  ⟨rfl, by simp [fallbackCards], by simp⟩

/-- C4 amended: for every run in which the search succeeds with at least one
offer — whatever the summarizer and card-generator calls then do — every
`ChatResponse` the handler produces carries the search result in `flights`
unmodified; `cards` is empty when the summarizer call raises (the message
then being the raw intent text) and when the card-generator call raises (the
message then being the summary); when both succeed, `cards` is whatever JSON
the card-generator output parses to (any shape, used as-is) or, when it
fails to parse, the fixed fallback triple — which does have exactly 3
entries. -/
theorem c4_flights_unmodified_cards_unvalidated (env : Env)
    (messages : List ChatMessage) (t : String) (v : Json)
    (fr : FlightSearchResult)
    (hne : messages ≠ []) (hext : env.extractor = .ok t)
    (hparse : jsonParse t = some v) (hfi : isFlightIntent v = true)
    (hsearch : env.search (searchParamsOf v) = .ok fr)
    (hitems : fr.items.length > 0) :
    (∀ r, (chatHandler env messages).1 = .ok r → r.flights = some fr) ∧
    (∀ e, env.summarizer = .error e →
      (chatHandler env messages).1 = .ok ⟨t, some fr, .arr []⟩) ∧
    (∀ s e, env.summarizer = .ok s → env.cardGen = .error e →
      (chatHandler env messages).1 = .ok ⟨s, some fr, .arr []⟩) ∧
    (∀ s c, env.summarizer = .ok s → env.cardGen = .ok c →
      (chatHandler env messages).1 =
        .ok ⟨s, some fr,
          match jsonParse c with
          | some j => j
          | none => fallbackCards (getField v "destination")⟩) ∧
    (∃ cs, fallbackCards (getField v "destination") = .arr cs ∧ cs.length = 3) := by
  cases messages with
  | nil => exact absurd rfl hne
  | cons m ms =>
    refine ⟨?_, ?_, ?_, ?_, _, rfl, rfl⟩
    · intro r hr
      cases hsm : env.summarizer with
      | error e =>
        simp [chatHandler, hext, hparse, hfi, flightFlow, hsearch, hitems,
          summarizeAndCards, hsm] at hr
        subst hr; rfl
      | ok s =>
        cases hcg : env.cardGen with
        | error e =>
          simp [chatHandler, hext, hparse, hfi, flightFlow, hsearch, hitems,
            summarizeAndCards, hsm, hcg] at hr
          subst hr; rfl
        | ok c =>
          simp [chatHandler, hext, hparse, hfi, flightFlow, hsearch, hitems,
            summarizeAndCards, hsm, hcg] at hr
          subst hr; rfl
    · intro e hsm
      simp [chatHandler, hext, hparse, hfi, flightFlow, hsearch, hitems,
        summarizeAndCards, hsm]
    · intro s e hsm hcg
      simp [chatHandler, hext, hparse, hfi, flightFlow, hsearch, hitems,
        summarizeAndCards, hsm, hcg]
    · intro s c hsm hcg
      simp [chatHandler, hext, hparse, hfi, flightFlow, hsearch, hitems,
        summarizeAndCards, hsm, hcg]

/-- C4 amended witness: a run whose summarizer raises after a one-offer
search — the response still carries the search result unmodified with empty
cards, and the fallback triple has 3 entries. -/
theorem c4_amended_witness :
    (chatHandler envSummarizerFails msgs1).1 =
      .ok ⟨intentJson, some result1, .arr []⟩ ∧
    (⟨intentJson, some result1, .arr []⟩ : ChatResponse).flights = some result1 ∧
    ∃ cs, fallbackCards (getField vIntent "destination") = .arr cs ∧ cs.length = 3 :=
  have h := c4_flights_unmodified_cards_unvalidated envSummarizerFails msgs1
    intentJson vIntent result1 (by simp [msgs1]) rfl rfl rfl rfl (by decide)
  ⟨h.2.1 "LLM down" rfl,
   h.1 ⟨intentJson, some result1, .arr []⟩ (h.2.1 "LLM down" rfl),
   h.2.2.2.2⟩

/-- C5 counterexample: the claim states that every malformed card-generator
output — including valid JSON that is not an array — is replaced by the
fallback triple.  On this run the card generator answers `5`: valid JSON but
not an array; the handler assigns it to `cards` as-is, and the response's
cards are `5`, not the fallback triple. -/
theorem c5_counterexample :
    (chatHandler envCardsNumber msgs1).1 =
      .ok ⟨"Found a great deal!", some result1, .num 5⟩ ∧
    Json.num 5 ≠ fallbackCards (getField vIntent "destination") :=
  ⟨rfl, by simp [fallbackCards]⟩

/-- C5 amended: the fallback triple is substituted exactly when the
card-generator output fails `JSON.parse`; any output that parses — array or
not, of any shape — is used as the response's cards unmodified. -/
theorem c5_fallback_only_on_parse_failure (env : Env)
    (messages : List ChatMessage) (t : String) (v : Json)
    (fr : FlightSearchResult) (s c : String)
    (hne : messages ≠ []) (hext : env.extractor = .ok t)
    (hparse : jsonParse t = some v) (hfi : isFlightIntent v = true)
    (hsearch : env.search (searchParamsOf v) = .ok fr)
    (hitems : fr.items.length > 0)
    (hsum : env.summarizer = .ok s) (hcard : env.cardGen = .ok c) :
    (∀ j, jsonParse c = some j →
      (chatHandler env messages).1 = .ok ⟨s, some fr, j⟩) ∧
    (jsonParse c = none →
      (chatHandler env messages).1 =
        .ok ⟨s, some fr, fallbackCards (getField v "destination")⟩) := by
  cases messages with
  | nil => exact absurd rfl hne
  | cons m ms =>
    constructor
    · intro j hj
      simp [chatHandler, hext, hparse, hfi, flightFlow, hsearch, hitems,
        summarizeAndCards, hsum, hcard, hj]
    · intro hj
      simp [chatHandler, hext, hparse, hfi, flightFlow, hsearch, hitems,
        summarizeAndCards, hsum, hcard, hj]

/-- C5 amended witness: a card-generator answer that is not JSON yields
exactly the fallback triple. -/
theorem c5_amended_witness :
    (chatHandler envCardsGarbage msgs1).1 =
      .ok ⟨"Found a great deal!", some result1,
        fallbackCards (getField vIntent "destination")⟩ :=
  (c5_fallback_only_on_parse_failure envCardsGarbage msgs1 intentJson vIntent
    result1 "Found a great deal!" "Here are your cards!"
    (by simp [msgs1]) rfl rfl rfl rfl (by decide) rfl rfl).2 rfl

/-- C8: whenever the parsed intent enters the flight flow, the Flight Search
Invoker is called (the call is in the trace) with: `adults = 1` when the
intent's `adults` field is absent, `currency = "USD"` when its `currency`
field is absent, `origin`, `destination`, `departDate` and `returnDate`
forwarded from the parsed intent unchanged, and `round` forwarded whenever
the intent carries a boolean `round`. -/
theorem c8_search_call_params (env : Env) (messages : List ChatMessage)
    (t : String) (v : Json)
    (hne : messages ≠ []) (hext : env.extractor = .ok t)
    (hparse : jsonParse t = some v) (hfi : isFlightIntent v = true) :
    Call.search (searchParamsOf v) ∈ (chatHandler env messages).2 ∧
    (getField v "adults" = none → (searchParamsOf v).adults = Json.num 1) ∧
    (getField v "currency" = none → (searchParamsOf v).currency = Json.str "USD") ∧
    (searchParamsOf v).origin = getField v "origin" ∧
    (searchParamsOf v).destination = getField v "destination" ∧
    (searchParamsOf v).departDate = getField v "departDate" ∧
    (searchParamsOf v).returnDate = getField v "returnDate" ∧
    (∀ b, getField v "round" = some (Json.bool b) → (searchParamsOf v).round = b) := by
  refine ⟨?_, ?_, ?_, rfl, rfl, rfl, rfl, ?_⟩
  · cases messages with
    | nil => exact absurd rfl hne
    | cons m ms =>
      cases hs : env.search (searchParamsOf v) with
      | error e =>
        simp [chatHandler, hext, hparse, hfi, flightFlow, hs]
      | ok fr =>
        by_cases hlen : fr.items.length > 0
        · cases hsm : env.summarizer with
          | error e2 =>
            simp [chatHandler, hext, hparse, hfi, flightFlow, hs, hlen,
              summarizeAndCards, hsm]
          | ok s =>
            cases hcg : env.cardGen with
            | error e3 =>
              simp [chatHandler, hext, hparse, hfi, flightFlow, hs, hlen,
                summarizeAndCards, hsm, hcg]
            | ok c =>
              simp [chatHandler, hext, hparse, hfi, flightFlow, hs, hlen,
                summarizeAndCards, hsm, hcg]
        · simp [chatHandler, hext, hparse, hfi, flightFlow, hs, hlen]
  · intro h; simp [searchParamsOf, h, jsOr]
  · intro h; simp [searchParamsOf, h, jsOr]
  · intro b h; simp [searchParamsOf, h, jsTruthyOpt, jsTruthy]

/-- C8 witness: the canned intent has no `adults` and no `currency` field,
so the invoker is called with `adults = 1` and `currency = "USD"`, the other
fields forwarded. -/
theorem c8_search_call_params_witness :
    Call.search (searchParamsOf vIntent) ∈ (chatHandler envBase msgs1).2 ∧
    (getField vIntent "adults" = none → (searchParamsOf vIntent).adults = Json.num 1) ∧
    (getField vIntent "currency" = none → (searchParamsOf vIntent).currency = Json.str "USD") ∧
    (searchParamsOf vIntent).origin = getField vIntent "origin" ∧
    (searchParamsOf vIntent).destination = getField vIntent "destination" ∧
    (searchParamsOf vIntent).departDate = getField vIntent "departDate" ∧
    (searchParamsOf vIntent).returnDate = getField vIntent "returnDate" ∧
    (∀ b, getField vIntent "round" = some (Json.bool b) →
      (searchParamsOf vIntent).round = b) :=
  c8_search_call_params envBase msgs1 intentJson vIntent (by simp [msgs1]) rfl rfl rfl

/-- C3 counterexample: the claimed invariant requires a non-empty message and
`cards` present only when a search was attempted.  On this run the extractor
answers the empty string: no search is attempted (the trace holds only the
extractor call), yet the response carries `cards` (empty array) and its
message is the empty string. -/
theorem c3_counterexample :
    chatHandler envEmptyText msgs1 =
      (.ok ⟨"", none, .arr []⟩, [Call.llm (intentMessages msgs1)]) := rfl

/-- C3 amended: every `ChatResponse` the pipeline produces satisfies:
the message is non-empty provided the extractor and summarizer texts are
non-empty (the message is always one of those texts or a fixed non-empty
string); `flights` is present exactly when a search call is in the trace and
succeeded (even with zero offers); `cards` — always present — differs from
the empty array only when the search succeeded with at least one offer. -/
theorem c3_invariant_amended (env : Env) (messages : List ChatMessage)
    (hext : ∀ t, env.extractor = .ok t → t ≠ "")
    (hsum : ∀ s, env.summarizer = .ok s → s ≠ "")
    (r : ChatResponse)
    (hr : (chatHandler env messages).1 = .ok r) :
    r.message ≠ "" ∧
    (r.flights.isSome = true ↔
      ∃ p fr, Call.search p ∈ (chatHandler env messages).2 ∧ env.search p = .ok fr) ∧
    (r.cards ≠ .arr [] → ∃ fr, r.flights = some fr ∧ fr.items ≠ []) := by
  cases messages with
  | nil => simp [chatHandler] at hr
  | cons m ms =>
    cases hex : env.extractor with
    | error e => simp [chatHandler, hex] at hr
    | ok t =>
      have ht := hext t hex
      cases hp : jsonParse t with
      | none =>
        simp [chatHandler, hex, hp] at hr
        subst hr
        refine ⟨ht, ?_, by simp⟩
        simp [chatHandler, hex, hp]
      | some v =>
        by_cases hfi : isFlightIntent v
        · cases hs : env.search (searchParamsOf v) with
          | error e =>
            simp [chatHandler, hex, hp, hfi, flightFlow, hs] at hr
            subst hr
            refine ⟨ht, ?_, by simp⟩
            simp only [chatHandler, hex, hp, hfi, flightFlow, hs]
            constructor
            · intro h; simp at h
            · rintro ⟨p, fr, hmem, hok⟩
              have hpq : p = searchParamsOf v := by simpa using hmem
              rw [hpq, hs] at hok
              cases hok
          | ok fr =>
            by_cases hlen : fr.items.length > 0
            · cases hsm : env.summarizer with
              | error e2 =>
                simp [chatHandler, hex, hp, hfi, flightFlow, hs, hlen,
                  summarizeAndCards, hsm] at hr
                subst hr
                refine ⟨ht, ?_, by simp⟩
                refine ⟨fun _ => ⟨searchParamsOf v, fr, ?_, hs⟩, fun _ => rfl⟩
                simp [chatHandler, hex, hp, hfi, flightFlow, hs, hlen,
                  summarizeAndCards, hsm]
              | ok s =>
                have hts := hsum s hsm
                cases hcg : env.cardGen with
                | error e3 =>
                  simp [chatHandler, hex, hp, hfi, flightFlow, hs, hlen,
                    summarizeAndCards, hsm, hcg] at hr
                  subst hr
                  refine ⟨hts, ?_, by simp⟩
                  refine ⟨fun _ => ⟨searchParamsOf v, fr, ?_, hs⟩, fun _ => rfl⟩
                  simp [chatHandler, hex, hp, hfi, flightFlow, hs, hlen,
                    summarizeAndCards, hsm, hcg]
                | ok c =>
                  simp [chatHandler, hex, hp, hfi, flightFlow, hs, hlen,
                    summarizeAndCards, hsm, hcg] at hr
                  subst hr
                  refine ⟨hts, ?_, fun _ => ⟨fr, rfl, List.length_pos.mp hlen⟩⟩
                  refine ⟨fun _ => ⟨searchParamsOf v, fr, ?_, hs⟩, fun _ => rfl⟩
                  simp [chatHandler, hex, hp, hfi, flightFlow, hs, hlen,
                    summarizeAndCards, hsm, hcg]
            · simp [chatHandler, hex, hp, hfi, flightFlow, hs, hlen] at hr
              subst hr
              refine ⟨by show noResultsMessage ≠ ""; decide, ?_, by simp⟩
              refine ⟨fun _ => ⟨searchParamsOf v, fr, ?_, hs⟩, fun _ => rfl⟩
              simp [chatHandler, hex, hp, hfi, flightFlow, hs, hlen]
        · simp [chatHandler, hex, hp, hfi] at hr
          subst hr
          refine ⟨ht, ?_, by simp⟩
          simp [chatHandler, hex, hp, hfi]

/-- C3 amended witness: the invariant instantiated on the fully successful
canned run. -/
theorem c3_invariant_witness :
    respBase.message ≠ "" ∧
    (respBase.flights.isSome = true ↔
      ∃ p fr, Call.search p ∈ (chatHandler envBase msgs1).2 ∧ envBase.search p = .ok fr) ∧
    (respBase.cards ≠ .arr [] → ∃ fr, respBase.flights = some fr ∧ fr.items ≠ []) :=
  c3_invariant_amended envBase msgs1
    (fun t h => by
      simp only [envBase, Except.ok.injEq] at h
      subst h; decide)
    (fun s h => by
      simp only [envBase, Except.ok.injEq] at h
      subst h; decide)
    respBase rfl

/-- C9: within one request the outbound calls form a strictly sequential
chain, captured by the call trace: it is always a prefix-shaped sequence —
nothing; just the intent-extractor call; extractor then one search call;
or extractor, search, summarizer (only when that search succeeded with at
least one offer) and then at most one card-generator call.  In this
functional model each call's arguments are built from the previous call's
result, so no call is issued before the earlier result is available and no
two calls overlap. -/
theorem c9_sequential_trace (env : Env) (messages : List ChatMessage) :
    (chatHandler env messages).2 = [] ∨
    (chatHandler env messages).2 = [Call.llm (intentMessages messages)] ∨
    (∃ p, (chatHandler env messages).2 =
      [Call.llm (intentMessages messages), Call.search p]) ∨
    (∃ p fr, env.search p = .ok fr ∧ fr.items ≠ [] ∧
      ((chatHandler env messages).2 =
        [Call.llm (intentMessages messages), Call.search p,
         Call.llm (summaryMessages fr)] ∨
       (∃ v, (chatHandler env messages).2 =
        [Call.llm (intentMessages messages), Call.search p,
         Call.llm (summaryMessages fr), Call.llm (cardsMessages v)]))) := by
  cases messages with
  | nil => exact Or.inl rfl
  | cons m ms =>
    cases hex : env.extractor with
    | error e => exact Or.inr (Or.inl (by simp [chatHandler, hex]))
    | ok t =>
      cases hp : jsonParse t with
      | none => exact Or.inr (Or.inl (by simp [chatHandler, hex, hp]))
      | some v =>
        by_cases hfi : isFlightIntent v
        · cases hs : env.search (searchParamsOf v) with
          | error e =>
            exact Or.inr (Or.inr (Or.inl ⟨searchParamsOf v,
              by simp [chatHandler, hex, hp, hfi, flightFlow, hs]⟩))
          | ok fr =>
            by_cases hlen : fr.items.length > 0
            · cases hsm : env.summarizer with
              | error e2 =>
                refine Or.inr (Or.inr (Or.inr
                  ⟨searchParamsOf v, fr, hs, List.length_pos.mp hlen, Or.inl ?_⟩))
                simp [chatHandler, hex, hp, hfi, flightFlow, hs, hlen,
                  summarizeAndCards, hsm]
              | ok s =>
                refine Or.inr (Or.inr (Or.inr
                  ⟨searchParamsOf v, fr, hs, List.length_pos.mp hlen,
                   Or.inr ⟨v, ?_⟩⟩))
                cases hcg : env.cardGen with
                | error e3 =>
                  simp [chatHandler, hex, hp, hfi, flightFlow, hs, hlen,
                    summarizeAndCards, hsm, hcg]
                | ok c =>
                  simp [chatHandler, hex, hp, hfi, flightFlow, hs, hlen,
                    summarizeAndCards, hsm, hcg]
            · exact Or.inr (Or.inr (Or.inl ⟨searchParamsOf v,
                by simp [chatHandler, hex, hp, hfi, flightFlow, hs, hlen]⟩))
        · exact Or.inr (Or.inl (by simp [chatHandler, hex, hp, hfi]))

end FlightChat
